import Mathlib

/-!
Shallow embedding of `cmd/freets_tools/internal/format/text/writer.go`:
the line-protocol export encoder (`Writer`) with its two modes, error latch,
and typed cursor drains, together with a model of the buffered sink
(`bufio.Writer`) it writes to.
-/

namespace TextFormat

/-- Error values produced by the sink; concrete codes stand for Go `error` values. -/
abbrev WErr := Nat

/-- Model of the buffered sink (`bufio.Writer`): the chunks it has accepted,
its internally latched error (a `bufio.Writer` remembers its first error and
refuses all later work), a plan of outcomes for successive write calls that
reach a healthy sink (`[]` means every write succeeds), and a count of write
calls made on it (used to state that a latched encoder performs no writes). -/
structure Sink where
  data : List String
  serr : Option WErr
  plan : List (Option WErr)
  attempts : Nat
deriving DecidableEq, Repr

/-- `bufio.Writer` write: if the sink already holds an error it accepts nothing
and returns that error; otherwise the next planned outcome decides success
(chunk appended) or failure (error latched inside the sink, nothing appended).
Every call is counted in `attempts`. -/
def Sink.write (s : Sink) (chunk : String) : Sink × Option WErr :=
  match s.serr with
  | some e => ({ s with attempts := s.attempts + 1 }, some e)
  | none =>
    match s.plan with
    | some e :: rest => ({ s with serr := some e, plan := rest, attempts := s.attempts + 1 }, some e)
    | none :: rest => ({ s with data := s.data ++ [chunk], plan := rest, attempts := s.attempts + 1 }, none)
    | [] => ({ s with data := s.data ++ [chunk], attempts := s.attempts + 1 }, none)

/-- `bufio.Writer.Flush`: reports the sink's latched error. The model keeps no
separate holding buffer, so a flush moves no bytes. -/
def Sink.flush (s : Sink) : Sink × Option WErr := (s, s.serr)

/-- `type Mode bool`. -/
abbrev Mode := Bool

/-- `const Series Mode = false`. -/
def Series : Mode := false

/-- `const Values Mode = true`. -/
def Values : Mode := true

/-- Modelled from the spec: `escape.Bytes` (not under src/) escapes commas,
spaces and equals signs in measurement/tag/field components with a backslash. -/
def escapeBytes (s : String) : String :=
  String.mk ((s.data.map fun c =>
    if c = ',' ∨ c = ' ' ∨ c = '=' then ['\\', c] else [c]).flatten)

/-- Modelled from the spec: `models.AppendMakeKey` (not under src/) renders the
series key: escaped measurement name, then for each tag pair, in the canonical
order the caller supplies, a comma, the escaped tag key, `=`, the escaped tag
value. -/
def AppendMakeKey (name : String) (tags : List (String × String)) : String :=
  escapeBytes name ++
    String.join (tags.map fun t => "," ++ escapeBytes t.1 ++ "=" ++ escapeBytes t.2)

/-- Modelled from the spec: `models.EscapeStringField` (not under src/) escapes
internal `"` and `\` characters of a string field value with a backslash. -/
def EscapeStringField (s : String) : String :=
  String.mk ((s.data.map fun c =>
    if c = '"' ∨ c = '\\' then ['\\', c] else [c]).flatten)

/-- A batch returned by a cursor fetch: parallel timestamp/value sequences,
modelled as (timestamp, value) pairs; a batch of length zero ends the drain. -/
abbrev Batch (α : Type) := List (Int × α)

/-- A cursor: the stream of batches successive `Next` calls return; an
exhausted cursor keeps returning zero-length batches. -/
abbrev Cursor (α : Type) := List (Batch α)

/-- `tsdb.IntegerArrayCursor`: int64 values (only ever formatted, never
computed with, so `Int` is a faithful carrier). -/
abbrev IntegerCursor := Cursor Int

/-- Modelled from the spec: Go `float64` values reach the writer only through
`strconv.AppendFloat(buf, v, 'g', -1, 64)` — the shortest decimal that
round-trips to the same 64-bit value. Absent that stdlib routine, each float is
carried as exactly that rendered decimal string. -/
abbrev FloatVal := String

/-- `tsdb.FloatArrayCursor`. -/
abbrev FloatCursor := Cursor FloatVal

/-- `tsdb.UnsignedArrayCursor`: uint64 values, only ever formatted. -/
abbrev UnsignedCursor := Cursor Nat

/-- `tsdb.BooleanArrayCursor`. -/
abbrev BooleanCursor := Cursor Bool

/-- `tsdb.StringArrayCursor`. -/
abbrev StringCursor := Cursor String

/-- `strconv.AppendInt(buf, v, 10)` then `'i'`: base-10 signed, suffix `i`. -/
def fmtInteger (v : Int) : String := toString v ++ "i"

/-- The float value part: its shortest round-trip decimal rendering (see `FloatVal`). -/
def fmtFloat (v : FloatVal) : String := v

/-- `strconv.AppendUint(buf, v, 10)` then `'u'`: base-10 unsigned, suffix `u`. -/
def fmtUnsigned (v : Nat) : String := toString v ++ "u"

/-- `strconv.AppendBool`: the literal `true` or `false`. -/
def fmtBoolean (v : Bool) : String := if v then "true" else "false"

/-- The string value part: double-quoted, internal `"` and `\` escaped. -/
def fmtString (v : String) : String := "\"" ++ EscapeStringField v ++ "\""

/-- One value line as assembled in the scratch buffer:
value part, space, base-10 timestamp, newline. -/
def lineWith (fv : α → String) (p : Int × α) : String :=
  fv p.2 ++ " " ++ toString p.1 ++ "\n"

/-- `type Writer struct { w *bufio.Writer; key []byte; err error; m Mode }`. -/
structure Writer where
  w : Sink
  key : String
  err : Option WErr
  m : Mode
deriving DecidableEq, Repr

/-- `NewWriter`: binds a (fresh) sink and a fixed mode; the scratch buffer
starts empty (its initial 1024-byte capacity is an allocation detail). -/
def NewWriter (m : Mode) : Writer :=
  { w := { data := [], serr := none, plan := [], attempts := 0 }
    key := ""
    err := none
    m := m }

/-- A fresh writer over a sink with the given failure plan. -/
def NewWriterPlan (m : Mode) (plan : List (Option WErr)) : Writer :=
  { w := { data := [], serr := none, plan := plan, attempts := 0 }
    key := ""
    err := none
    m := m }

/-- `func (w *Writer) Close() error { return w.w.Flush() }` — the pair carries
the post-state and the returned error. -/
def Writer.Close (w : Writer) : Writer × Option WErr :=
  ({ w with w := (w.w.flush).1 }, (w.w.flush).2)

/-- `func (w *Writer) Err() error { return w.err }`. -/
def Writer.Err (w : Writer) : Option WErr := w.err

/-- `BeginSeries`: no-op when latched; in Series mode, rebuild the key
(measurement, tags, space, escaped field) in the scratch buffer and write it
plus a newline — the results of both sink writes are discarded. In Values
mode, no output (the `typ` parameter is accepted but unused). -/
def Writer.BeginSeries (w : Writer) (name field : String) (typ : Nat)
    (tags : List (String × String)) : Writer :=
  if w.err.isSome then w
  else if w.m = Series then
    let key := AppendMakeKey name tags ++ " " ++ escapeBytes field
    let s1 := (w.w.write key).1
    let s2 := (s1.write "\n").1
    { w with w := s2, key := key }
  else w

/-- `func (w *Writer) EndSeries() {}`. -/
def Writer.EndSeries (w : Writer) : Writer := w

/-- The inner per-batch loop shared by all five typed writers: for each
(timestamp, value) pair, reset the scratch, render the line, write it, assign
the result to the latch and return early on failure. The boolean reports the
early return. -/
def writeBatchWith (fv : α → String) : Writer → Batch α → Writer × Bool
  | w, [] => (w, false)
  | w, p :: rest =>
    let r := w.w.write (lineWith fv p)
    let w' : Writer := { w with w := r.1, err := r.2 }
    match r.2 with
    | some _ => (w', true)
    | none => writeBatchWith fv w' rest

/-- The outer drain loop shared by all five typed writers: fetch batches until
a zero-length batch, draining each; a write failure abandons the remainder.
The second component is the cursor's unfetched remainder. -/
def drainWith (fv : α → String) : Writer → Cursor α → Writer × Cursor α
  | w, [] => (w, [])
  | w, [] :: rest => (w, rest)
  | w, (p :: ps) :: rest =>
    match writeBatchWith fv w (p :: ps) with
    | (w', true) => (w', rest)
    | (w', false) => drainWith fv w' rest

/-- The guard shared by all five typed writers: a no-op that does not touch
the cursor when latched or in Series mode, otherwise the drain. -/
def writeCursorWith (fv : α → String) (w : Writer) (cur : Cursor α) :
    Writer × Cursor α :=
  if w.err.isSome ∨ w.m = Series then (w, cur)
  else drainWith fv w cur

/-- `func (w *Writer) WriteIntegerCursor(cur tsdb.IntegerArrayCursor)`. -/
def Writer.WriteIntegerCursor (w : Writer) (cur : IntegerCursor) :
    Writer × IntegerCursor :=
  writeCursorWith fmtInteger w cur

/-- `func (w *Writer) WriteFloatCursor(cur tsdb.FloatArrayCursor)`. -/
def Writer.WriteFloatCursor (w : Writer) (cur : FloatCursor) :
    Writer × FloatCursor :=
  writeCursorWith fmtFloat w cur

/-- `func (w *Writer) WriteUnsignedCursor(cur tsdb.UnsignedArrayCursor)`. -/
def Writer.WriteUnsignedCursor (w : Writer) (cur : UnsignedCursor) :
    Writer × UnsignedCursor :=
  writeCursorWith fmtUnsigned w cur

/-- `func (w *Writer) WriteBooleanCursor(cur tsdb.BooleanArrayCursor)`. -/
def Writer.WriteBooleanCursor (w : Writer) (cur : BooleanCursor) :
    Writer × BooleanCursor :=
  writeCursorWith fmtBoolean w cur

/-- `func (w *Writer) WriteStringCursor(cur tsdb.StringArrayCursor)`. -/
def Writer.WriteStringCursor (w : Writer) (cur : StringCursor) :
    Writer × StringCursor :=
  writeCursorWith fmtString w cur

/-- One call a driver can make on the encoder between construction and Close. -/
inductive Op where
  | beginS (name field : String) (typ : Nat) (tags : List (String × String))
  | endS
  | wInteger (cur : IntegerCursor)
  | wFloat (cur : FloatCursor)
  | wUnsigned (cur : UnsignedCursor)
  | wBoolean (cur : BooleanCursor)
  | wString (cur : StringCursor)
deriving DecidableEq, Repr

/-- Whether an operation is one of the five typed Write calls. -/
def Op.isWrite : Op → Bool
  | .beginS _ _ _ _ => false
  | .endS => false
  | _ => true

/-- Run one operation on the encoder (drivers discard the drained cursor). -/
def execOp (w : Writer) : Op → Writer
  | .beginS n f ty tg => w.BeginSeries n f ty tg
  | .endS => w.EndSeries
  | .wInteger c => (w.WriteIntegerCursor c).1
  | .wFloat c => (w.WriteFloatCursor c).1
  | .wUnsigned c => (w.WriteUnsignedCursor c).1
  | .wBoolean c => (w.WriteBooleanCursor c).1
  | .wString c => (w.WriteStringCursor c).1

/-- Run a call sequence on the encoder. -/
def execOps (w : Writer) : List Op → Writer
  | [] => w
  | op :: ops => execOps (execOp w op) ops

/-- The bytes that have reached the sink, as one string. -/
def Writer.output (w : Writer) : String := String.join w.w.data

/-! ### Helper lemmas -/

/-- A latched or Series-mode writer's typed-write guard returns immediately. -/
theorem writeCursorWith_guard (fv : α → String) (w : Writer) (cur : Cursor α)
    (h : w.err.isSome = true ∨ w.m = Series) :
    writeCursorWith fv w cur = (w, cur) := by
  simp [writeCursorWith, h]

/-- A latched writer is left untouched by any single operation. -/
theorem execOp_frozen (w : Writer) (e : WErr) (op : Op) (h : w.err = some e) :
    execOp w op = w := by
  have hs : w.err.isSome = true := by simp [h]
  cases op <;>
    simp [execOp, Writer.BeginSeries, Writer.EndSeries, Writer.WriteIntegerCursor,
      Writer.WriteFloatCursor, Writer.WriteUnsignedCursor, Writer.WriteBooleanCursor,
      Writer.WriteStringCursor, writeCursorWith, hs]

/-- A latched writer is left untouched by any call sequence. -/
theorem execOps_frozen (ops : List Op) :
    ∀ (w : Writer) (e : WErr), w.err = some e → execOps w ops = w := by
  induction ops with
  | nil => intro w e _; rfl
  | cons op ops ih =>
    intro w e h
    rw [execOps, execOp_frozen w e op h]
    exact ih w e h

/-- `BeginSeries` never changes the mode. -/
theorem BeginSeries_m (w : Writer) (n f : String) (ty : Nat)
    (tg : List (String × String)) : (w.BeginSeries n f ty tg).m = w.m := by
  unfold Writer.BeginSeries
  split
  · rfl
  · split <;> rfl

/-- `BeginSeries` never changes the latch. -/
theorem BeginSeries_err (w : Writer) (n f : String) (ty : Nat)
    (tg : List (String × String)) : (w.BeginSeries n f ty tg).err = w.err := by
  unfold Writer.BeginSeries
  split
  · rfl
  · split <;> rfl

/-- The per-batch loop never changes the mode. -/
theorem writeBatchWith_m (fv : α → String) (b : Batch α) :
    ∀ w : Writer, ((writeBatchWith fv w b).1).m = w.m := by
  induction b with
  | nil => intro w; rfl
  | cons p rest ih =>
    intro w
    simp only [writeBatchWith]
    split
    · rfl
    · exact ih _

/-- The drain loop never changes the mode. -/
theorem drainWith_m (fv : α → String) (c : Cursor α) :
    ∀ w : Writer, ((drainWith fv w c).1).m = w.m := by
  induction c with
  | nil => intro w; rfl
  | cons b rest ih =>
    intro w
    cases b with
    | nil => rfl
    | cons p ps =>
      simp only [drainWith]
      split
      · next w' heq =>
        have := writeBatchWith_m fv (p :: ps) w
        rw [heq] at this
        exact this
      · next w' heq =>
        have h1 := writeBatchWith_m fv (p :: ps) w
        rw [heq] at h1
        rw [ih w']
        exact h1

/-- No single operation changes the mode. -/
theorem execOp_m (w : Writer) (op : Op) : (execOp w op).m = w.m := by
  cases op <;>
    simp only [execOp, Writer.EndSeries, Writer.WriteIntegerCursor,
      Writer.WriteFloatCursor, Writer.WriteUnsignedCursor, Writer.WriteBooleanCursor,
      Writer.WriteStringCursor, writeCursorWith]
  case beginS n f ty tg => exact BeginSeries_m w n f ty tg
  all_goals split
  all_goals first
    | rfl
    | exact drainWith_m _ _ w

/-- No call sequence changes the mode. -/
theorem execOps_m (ops : List Op) : ∀ w : Writer, (execOps w ops).m = w.m := by
  induction ops with
  | nil => intro w; rfl
  | cons op ops ih =>
    intro w
    rw [execOps, ih (execOp w op), execOp_m]

/-- In Series mode, every typed write operation is the identity. -/
theorem execOp_series_write (w : Writer) (op : Op) (hm : w.m = Series)
    (hw : op.isWrite = true) : execOp w op = w := by
  cases op <;> simp [Op.isWrite] at hw <;>
    simp [execOp, Writer.WriteIntegerCursor, Writer.WriteFloatCursor,
      Writer.WriteUnsignedCursor, Writer.WriteBooleanCursor, Writer.WriteStringCursor,
      writeCursorWith, hm]

/-- In Series mode, a sequence of typed write operations is the identity. -/
theorem execOps_series_writes (ops : List Op) :
    ∀ w : Writer, w.m = Series → (∀ op ∈ ops, op.isWrite = true) →
    execOps w ops = w := by
  induction ops with
  | nil => intro w _ _; rfl
  | cons op ops ih =>
    intro w hm hops
    rw [execOps, execOp_series_write w op hm (hops op (by simp))]
    exact ih w hm (fun o ho => hops o (by simp [ho]))

/-- An unlatched Values-mode writer whose first fetch is a zero-length batch
is returned unchanged, with the cursor advanced past that batch. -/
theorem writeCursorWith_empty_first (fv : α → String) (w : Writer)
    (c : Cursor α) (h1 : w.err = none) (h2 : w.m = Values)
    (hc : c.head?.getD [] = []) : writeCursorWith fv w c = (w, c.tail) := by
  cases c with
  | nil => simp [writeCursorWith, drainWith, h1, h2, Values, Series]
  | cons b rest =>
    simp only [List.head?_cons, Option.getD_some] at hc
    subst hc
    simp [writeCursorWith, drainWith, h1, h2, Values, Series]

/-- Per-batch loop, all-success path: on an unlatched writer over a healthy
sink whose plan never fails, every pair's line is appended in order and the
loop runs to the end of the batch. -/
theorem writeBatchWith_ok (fv : α → String) (b : Batch α) :
    ∀ (d : List String) (k : String) (m : Mode) (a : Nat),
    writeBatchWith fv ⟨⟨d, none, [], a⟩, k, none, m⟩ b =
      (⟨⟨d ++ b.map (lineWith fv), none, [], a + b.length⟩, k, none, m⟩, false) := by
  induction b with
  | nil => intro d k m a; simp [writeBatchWith]
  | cons p rest ih =>
    intro d k m a
    simp only [writeBatchWith, Sink.write]
    rw [ih (d ++ [lineWith fv p]) k m (a + 1)]
    simp [List.append_assoc]
    all_goals omega

/-- Per-batch loop, first-failure path: the sink's plan fails on the `j`-th
write of this batch, so exactly the first `j` lines are appended, the failing
write is the last sink call, the latch is set and the loop returns early. -/
theorem writeBatchWith_abandon (fv : α → String) (b : Batch α) :
    ∀ (d : List String) (k : String) (m : Mode) (a : Nat) (er : Option WErr)
      (j : Nat) (e : WErr) (rest : List (Option WErr)), j < b.length →
    writeBatchWith fv
        ⟨⟨d, none, List.replicate j none ++ some e :: rest, a⟩, k, er, m⟩ b =
      (⟨⟨d ++ (b.take j).map (lineWith fv), some e, rest, a + j + 1⟩,
        k, some e, m⟩, true) := by
  induction b with
  | nil => intro d k m a er j e rest h; simp at h
  | cons p bs ih =>
    intro d k m a er j e rest h
    cases j with
    | zero =>
      simp [writeBatchWith, Sink.write, List.replicate]
    | succ j' =>
      rw [List.replicate_succ, List.cons_append]
      simp only [writeBatchWith, Sink.write]
      rw [ih (d ++ [lineWith fv p]) k m (a + 1) none j' e rest
            (by simpa using h)]
      simp [List.append_assoc]
      all_goals omega

/-- Drain loop, all-success path: over a healthy never-failing sink, with no
zero-length batch in the stream, every pair of every batch is rendered in
arrival order and the cursor is fetched to exhaustion. -/
theorem drainWith_ok (fv : α → String) (bs : Cursor α) :
    ∀ (d : List String) (k : String) (m : Mode) (a : Nat),
    (∀ b ∈ bs, b ≠ []) →
    drainWith fv ⟨⟨d, none, [], a⟩, k, none, m⟩ bs =
      (⟨⟨d ++ bs.flatten.map (lineWith fv), none, [], a + bs.flatten.length⟩,
        k, none, m⟩, []) := by
  induction bs with
  | nil => intro d k m a _; simp [drainWith]
  | cons b bs ih =>
    intro d k m a h4
    have hb : b ≠ [] := h4 b (by simp)
    cases b with
    | nil => exact absurd rfl hb
    | cons p ps =>
      simp only [drainWith, writeBatchWith_ok fv (p :: ps) d k m a]
      rw [ih (d ++ (p :: ps).map (lineWith fv)) k m (a + (p :: ps).length)
            (fun x hx => h4 x (by simp [hx]))]
      simp [List.append_assoc]
      all_goals omega

/-- An unlatched Values-mode typed write over a healthy never-failing sink
drains the whole cursor, appending one line per pair in arrival order. -/
theorem writeCursorWith_values_ok (fv : α → String) (w : Writer)
    (bs : Cursor α) (h1 : w.err = none) (h2 : w.m = Values)
    (h3 : w.w.serr = none) (h4 : w.w.plan = []) (h5 : ∀ b ∈ bs, b ≠ []) :
    writeCursorWith fv w bs =
      (⟨⟨w.w.data ++ bs.flatten.map (lineWith fv), none, [],
         w.w.attempts + bs.flatten.length⟩, w.key, none, Values⟩, []) := by
  obtain ⟨⟨d, serr, plan, a⟩, k, er, m⟩ := w
  dsimp only at h1 h2 h3 h4 ⊢
  subst h1 h2 h3 h4
  rw [writeCursorWith, if_neg (by simp [Values, Series])]
  rw [drainWith_ok fv bs d k Values a h5]

/-- An unlatched Values-mode typed write whose sink plan fails on the `j`-th
line of the first batch: exactly `j` lines reach the sink, the failing write
is the last sink call, the latch is set and the rest of the cursor is
abandoned unfetched. -/
theorem writeCursorWith_values_abandon (fv : α → String) (w : Writer)
    (ps : Batch α) (extra : Cursor α) (j : Nat) (e : WErr)
    (rest : List (Option WErr)) (h1 : w.err = none) (h2 : w.m = Values)
    (h3 : w.w.serr = none)
    (h4 : w.w.plan = List.replicate j none ++ some e :: rest)
    (h5 : j < ps.length) :
    writeCursorWith fv w (ps :: extra) =
      (⟨⟨w.w.data ++ (ps.take j).map (lineWith fv), some e, rest,
         w.w.attempts + j + 1⟩, w.key, some e, Values⟩, extra) := by
  obtain ⟨⟨d, serr, plan, a⟩, k, er, m⟩ := w
  dsimp only at h1 h2 h3 h4 ⊢
  subst h1 h2 h3 h4
  cases ps with
  | nil => simp at h5
  | cons p ps' =>
    rw [writeCursorWith, if_neg (by simp [Values, Series])]
    simp only [drainWith,
      writeBatchWith_abandon fv (p :: ps') d k Values a none j e rest h5]

/-! ### Claims -/

/-- C1, amended (the write's result is discarded, not latched): in SeriesMode,
when `BeginSeries`'s write of the key line to the sink fails, the error latch
is NOT set: `Err()` afterwards returns none, no bytes reach the sink, the
buffered sink latches the failure internally, and `Close()` reports that
error via the flush result. -/
theorem c1_beginSeries_discards_write_failure (w : Writer) (n f : String)
    (ty : Nat) (tg : List (String × String)) (e : WErr)
    (rest : List (Option WErr)) (h1 : w.err = none) (h2 : w.m = Series)
    (h3 : w.w.serr = none) (h4 : w.w.plan = some e :: rest) :
    (w.BeginSeries n f ty tg).err = none
    ∧ (w.BeginSeries n f ty tg).Err = none
    ∧ (w.BeginSeries n f ty tg).w.serr = some e
    ∧ (w.BeginSeries n f ty tg).w.data = w.w.data
    ∧ (w.BeginSeries n f ty tg).Close.2 = some e := by
  obtain ⟨⟨d, serr, plan, a⟩, k, er, m⟩ := w
  dsimp only at h1 h2 h3 h4 ⊢
  subst h1 h2 h3 h4
  simp [Writer.BeginSeries, Sink.write, Writer.Err, Writer.Close, Sink.flush]

/-- Witness for the amended C1 at a concrete input. -/
theorem c1_amended_witness :
    ((NewWriterPlan Series [some 1]).BeginSeries "m" "f" 0 []).err = none
    ∧ ((NewWriterPlan Series [some 1]).BeginSeries "m" "f" 0 []).Err = none
    ∧ ((NewWriterPlan Series [some 1]).BeginSeries "m" "f" 0 []).w.serr = some 1
    ∧ ((NewWriterPlan Series [some 1]).BeginSeries "m" "f" 0 []).w.data
        = (NewWriterPlan Series [some 1]).w.data
    ∧ ((NewWriterPlan Series [some 1]).BeginSeries "m" "f" 0 []).Close.2 = some 1 :=
  c1_beginSeries_discards_write_failure (NewWriterPlan Series [some 1])
    "m" "f" 0 [] 1 [] rfl rfl rfl rfl

/-- C1 counterexample: on a fresh Series-mode encoder whose sink fails the
very first write, `BeginSeries` suffers a key-line write failure (two sink
write calls are made, the sink latches error 1 internally, zero bytes are
accepted) — yet the encoder's error latch stays unset and `Err()` returns
none, contradicting the claim that the latch holds that write error. -/
theorem c1_counterexample_latch_not_set :
    ((NewWriterPlan Series [some 1]).BeginSeries "m" "f" 0 []).w.serr = some 1
    ∧ ((NewWriterPlan Series [some 1]).BeginSeries "m" "f" 0 []).w.data = []
    ∧ ((NewWriterPlan Series [some 1]).BeginSeries "m" "f" 0 []).w.attempts = 2
    ∧ ¬ ((NewWriterPlan Series [some 1]).BeginSeries "m" "f" 0 []).Err = some 1
    ∧ ((NewWriterPlan Series [some 1]).BeginSeries "m" "f" 0 []).Err = none := by
  decide

/-- C2: once the latch holds an error, running any further call sequence
leaves the encoder — its accepted bytes, its count of sink write calls, its
whole state — exactly unchanged; and a point-write failure on the `j`-th line
of a batch appends exactly the first `j` lines, makes the failing write the
last sink call, sets the latch and abandons the unfetched rest of the cursor. -/
theorem c2_latch_stops_all_output :
    (∀ (w : Writer) (e : WErr) (ops : List Op), w.err = some e →
      execOps w ops = w)
    ∧ (∀ (w : Writer) (ps : Batch Int) (extra : IntegerCursor) (j : Nat)
        (e : WErr) (rest : List (Option WErr)),
        w.err = none → w.m = Values → w.w.serr = none →
        w.w.plan = List.replicate j none ++ some e :: rest → j < ps.length →
        (w.WriteIntegerCursor (ps :: extra)).1.err = some e
        ∧ (w.WriteIntegerCursor (ps :: extra)).1.w.data
            = w.w.data ++ (ps.take j).map (lineWith fmtInteger)
        ∧ (w.WriteIntegerCursor (ps :: extra)).1.w.attempts
            = w.w.attempts + j + 1
        ∧ (w.WriteIntegerCursor (ps :: extra)).2 = extra) := by
  constructor
  · intro w e ops h
    exact execOps_frozen ops w e h
  · intro w ps extra j e rest h1 h2 h3 h4 h5
    rw [Writer.WriteIntegerCursor,
      writeCursorWith_values_abandon fmtInteger w ps extra j e rest h1 h2 h3 h4 h5]
    exact ⟨rfl, rfl, rfl, rfl⟩

/-- Witness for C2 at concrete inputs: a latched encoder is frozen across a
call sequence, and a failure on the second line of a batch stops output there. -/
theorem c2_witness :
    execOps ⟨⟨[], none, [], 0⟩, "", some 5, Values⟩
        [Op.endS, Op.wInteger [[(1, 2)]], Op.beginS "m" "f" 0 []]
      = ⟨⟨[], none, [], 0⟩, "", some 5, Values⟩
    ∧ ((⟨⟨[], none, [none, some 7], 0⟩, "", none, Values⟩ : Writer).WriteIntegerCursor
        [[(10, 100), (20, 200), (30, 300)], [(40, 400)]]).1.w.data
      = [] ++ ([((10 : Int), (100 : Int)), (20, 200), (30, 300)].take 1).map (lineWith fmtInteger) :=
  ⟨c2_latch_stops_all_output.1 _ 5 _ rfl,
   (c2_latch_stops_all_output.2 ⟨⟨[], none, [none, some 7], 0⟩, "", none, Values⟩
     [(10, 100), (20, 200), (30, 300)] [[(40, 400)]] 1 7 [] rfl rfl rfl rfl
     (by decide)).2.1⟩

/-- C3: in ValuesMode with no prior error over a healthy never-failing sink,
`WriteIntegerCursor` appends exactly one chunk per (timestamp, value) pair in
arrival order across all (nonempty) batches, each chunk being the base-10
signed value, `i`, a space, the base-10 signed timestamp, and a newline; the
batches [(t=10,v=100)], [(t=20,v=200)] produce exactly `100i 10\n200i 20\n`. -/
theorem c3_values_integer_rendering :
    (∀ (w : Writer) (bs : IntegerCursor),
      w.err = none → w.m = Values → w.w.serr = none → w.w.plan = [] →
      (∀ b ∈ bs, b ≠ []) →
      (w.WriteIntegerCursor bs).1.w.data
        = w.w.data ++ bs.flatten.map (lineWith fmtInteger))
    ∧ (∀ t v : Int, lineWith fmtInteger (t, v)
        = toString v ++ "i" ++ " " ++ toString t ++ "\n")
    ∧ ((NewWriter Values).WriteIntegerCursor [[(10, 100), (20, 200)]]).1.output
        = "100i 10\n200i 20\n" := by
  refine ⟨?_, ?_, ?_⟩
  · intro w bs h1 h2 h3 h4 h5
    rw [Writer.WriteIntegerCursor,
      writeCursorWith_values_ok fmtInteger w bs h1 h2 h3 h4 h5]
  · intro t v
    rfl
  · decide

/-- Witness for C3 at a concrete input: a fresh Values encoder and two
single-pair batches. -/
theorem c3_witness :
    ((NewWriter Values).WriteIntegerCursor [[(10, 100)], [(20, 200)]]).1.w.data
      = (NewWriter Values).w.data
          ++ [[((10 : Int), (100 : Int))], [(20, 200)]].flatten.map (lineWith fmtInteger) :=
  c3_values_integer_rendering.1 (NewWriter Values) [[(10, 100)], [(20, 200)]]
    rfl rfl rfl rfl (by decide)

/-- C4: each of the five typed Write methods, on a latched or Series-mode
encoder, returns the encoder and the cursor exactly unchanged (so the cursor
is never fetched); hence in SeriesMode, `BeginSeries` followed by any sequence
of typed Write calls equals `BeginSeries` alone. -/
theorem c4_typed_writes_guard_noop :
    (∀ w : Writer, w.err.isSome = true ∨ w.m = Series →
      (∀ c : IntegerCursor, w.WriteIntegerCursor c = (w, c))
      ∧ (∀ c : FloatCursor, w.WriteFloatCursor c = (w, c))
      ∧ (∀ c : UnsignedCursor, w.WriteUnsignedCursor c = (w, c))
      ∧ (∀ c : BooleanCursor, w.WriteBooleanCursor c = (w, c))
      ∧ (∀ c : StringCursor, w.WriteStringCursor c = (w, c)))
    ∧ (∀ (w : Writer) (n f : String) (ty : Nat) (tg : List (String × String))
        (ops : List Op), w.m = Series → (∀ op ∈ ops, op.isWrite = true) →
        execOps (w.BeginSeries n f ty tg) ops = w.BeginSeries n f ty tg) := by
  constructor
  · intro w h
    exact ⟨fun c => writeCursorWith_guard _ w c h,
      fun c => writeCursorWith_guard _ w c h,
      fun c => writeCursorWith_guard _ w c h,
      fun c => writeCursorWith_guard _ w c h,
      fun c => writeCursorWith_guard _ w c h⟩
  · intro w n f ty tg ops hm hops
    exact execOps_series_writes ops _ (by rw [BeginSeries_m]; exact hm) hops

/-- Witness for C4 at concrete inputs: a latched Values encoder, and a fresh
Series encoder driven with a write after `BeginSeries`. -/
theorem c4_witness :
    (⟨⟨[], none, [], 0⟩, "", some 3, Values⟩ : Writer).WriteIntegerCursor [[(1, 2)]]
      = (⟨⟨[], none, [], 0⟩, "", some 3, Values⟩, [[(1, 2)]])
    ∧ execOps ((NewWriter Series).BeginSeries "cpu" "f" 0 [])
        [Op.wInteger [[(1, 2)]], Op.wBoolean [[(3, true)]]]
      = (NewWriter Series).BeginSeries "cpu" "f" 0 [] :=
  ⟨((c4_typed_writes_guard_noop.1
      (⟨⟨[], none, [], 0⟩, "", some 3, Values⟩ : Writer) (Or.inl rfl)).1) [[(1, 2)]],
   c4_typed_writes_guard_noop.2 (NewWriter Series) "cpu" "f" 0 [] _ rfl (by decide)⟩

/-- C5: in ValuesMode with no prior error, a typed Write on a cursor whose
first fetch returns a zero-length batch returns the encoder unchanged — zero
bytes of output and `Err()` still none — for every one of the five types. -/
theorem c5_empty_first_batch_no_output (w : Writer)
    (h1 : w.err = none) (h2 : w.m = Values) :
    (∀ c : IntegerCursor, c.head?.getD [] = [] →
      w.WriteIntegerCursor c = (w, c.tail)
      ∧ (w.WriteIntegerCursor c).1.w.data = w.w.data
      ∧ (w.WriteIntegerCursor c).1.Err = none)
    ∧ (∀ c : FloatCursor, c.head?.getD [] = [] →
      w.WriteFloatCursor c = (w, c.tail)
      ∧ (w.WriteFloatCursor c).1.w.data = w.w.data
      ∧ (w.WriteFloatCursor c).1.Err = none)
    ∧ (∀ c : UnsignedCursor, c.head?.getD [] = [] →
      w.WriteUnsignedCursor c = (w, c.tail)
      ∧ (w.WriteUnsignedCursor c).1.w.data = w.w.data
      ∧ (w.WriteUnsignedCursor c).1.Err = none)
    ∧ (∀ c : BooleanCursor, c.head?.getD [] = [] →
      w.WriteBooleanCursor c = (w, c.tail)
      ∧ (w.WriteBooleanCursor c).1.w.data = w.w.data
      ∧ (w.WriteBooleanCursor c).1.Err = none)
    ∧ (∀ c : StringCursor, c.head?.getD [] = [] →
      w.WriteStringCursor c = (w, c.tail)
      ∧ (w.WriteStringCursor c).1.w.data = w.w.data
      ∧ (w.WriteStringCursor c).1.Err = none) := by
  have gen : ∀ (α : Type) (fv : α → String) (c : Cursor α),
      c.head?.getD [] = [] →
      writeCursorWith fv w c = (w, c.tail)
      ∧ (writeCursorWith fv w c).1.w.data = w.w.data
      ∧ (writeCursorWith fv w c).1.Err = none := by
    intro α fv c hc
    have h := writeCursorWith_empty_first fv w c h1 h2 hc
    rw [h]
    exact ⟨rfl, rfl, h1⟩
  exact ⟨fun c hc => gen _ fmtInteger c hc, fun c hc => gen _ fmtFloat c hc,
    fun c hc => gen _ fmtUnsigned c hc, fun c hc => gen _ fmtBoolean c hc,
    fun c hc => gen _ fmtString c hc⟩

/-- Witness for C5 at a concrete input: a fresh Values encoder and a cursor
whose first batch is empty. -/
theorem c5_witness :
    (NewWriter Values).WriteIntegerCursor [[], [(1, 2)]]
      = (NewWriter Values, [[], [((1 : Int), (2 : Int))]].tail) :=
  ((c5_empty_first_batch_no_output (NewWriter Values) rfl rfl).1
    [[], [(1, 2)]] (by decide)).1

/-- C6: `Close()` returns exactly the sink's flush result — unchanged if the
latch field is replaced by anything, and leaving the latch as it was — while
`Err()` returns exactly the latch, which, once it holds an error, keeps
holding that first error across every further call sequence. -/
theorem c6_close_flush_independent_of_latch :
    (∀ (w : Writer) (ne : Option WErr),
      ({ w with err := ne } : Writer).Close.2 = w.Close.2
      ∧ w.Close.2 = (w.w.flush).2
      ∧ (w.Close.1).err = w.err
      ∧ w.Err = w.err)
    ∧ (∀ (w : Writer) (ops : List Op) (e : WErr), w.err = some e →
      (execOps w ops).Err = some e) := by
  constructor
  · intro w ne
    exact ⟨rfl, rfl, rfl, rfl⟩
  · intro w ops e h
    rw [execOps_frozen ops w e h]
    exact h

/-- Witness for C6 at a concrete input: a latched encoder keeps reporting its
first error after further calls. -/
theorem c6_witness :
    (execOps ⟨⟨[], none, [], 0⟩, "", some 9, Series⟩ [Op.endS]).Err = some 9 :=
  c6_close_flush_independent_of_latch.2 _ [Op.endS] 9 rfl

/-- C7: in ValuesMode with no prior error over a healthy never-failing sink,
`WriteStringCursor` appends one chunk per pair: the value double-quoted with
internal `"` and `\` escaped, a space, the base-10 timestamp and a newline;
the pair (t=7, v=a"b) produces exactly `"a\"b" 7\n`. -/
theorem c7_values_string_rendering :
    (∀ (w : Writer) (bs : StringCursor),
      w.err = none → w.m = Values → w.w.serr = none → w.w.plan = [] →
      (∀ b ∈ bs, b ≠ []) →
      (w.WriteStringCursor bs).1.w.data
        = w.w.data ++ bs.flatten.map (lineWith fmtString))
    ∧ (∀ (t : Int) (v : String), lineWith fmtString (t, v)
        = "\"" ++ EscapeStringField v ++ "\"" ++ " " ++ toString t ++ "\n")
    ∧ ((NewWriter Values).WriteStringCursor [[(7, "a\"b")]]).1.output
        = "\"a\\\"b\" 7\n" := by
  refine ⟨?_, ?_, ?_⟩
  · intro w bs h1 h2 h3 h4 h5
    rw [Writer.WriteStringCursor,
      writeCursorWith_values_ok fmtString w bs h1 h2 h3 h4 h5]
  · intro t v
    rfl
  · decide

/-- Witness for C7 at a concrete input. -/
theorem c7_witness :
    ((NewWriter Values).WriteStringCursor [[(7, "a\"b")]]).1.w.data
      = (NewWriter Values).w.data
          ++ [[((7 : Int), "a\"b")]].flatten.map (lineWith fmtString) :=
  c7_values_string_rendering.1 (NewWriter Values) [[(7, "a\"b")]]
    rfl rfl rfl rfl (by decide)

/-- C8: no operation (nor Close) ever changes the mode; a Series-mode encoder
emits nothing from any typed Write (so never a point-value line), and a
Values-mode encoder emits nothing from `BeginSeries` (so never a key line). -/
theorem c8_mode_fixed_for_life :
    (∀ (w : Writer) (ops : List Op), (execOps w ops).m = w.m)
    ∧ (∀ w : Writer, (w.Close.1).m = w.m ∧ (w.EndSeries).m = w.m)
    ∧ (∀ w : Writer, w.m = Series →
        (∀ c : IntegerCursor, (w.WriteIntegerCursor c).1.w.data = w.w.data)
        ∧ (∀ c : FloatCursor, (w.WriteFloatCursor c).1.w.data = w.w.data)
        ∧ (∀ c : UnsignedCursor, (w.WriteUnsignedCursor c).1.w.data = w.w.data)
        ∧ (∀ c : BooleanCursor, (w.WriteBooleanCursor c).1.w.data = w.w.data)
        ∧ (∀ c : StringCursor, (w.WriteStringCursor c).1.w.data = w.w.data))
    ∧ (∀ (w : Writer) (n f : String) (ty : Nat) (tg : List (String × String)),
        w.m = Values → (w.BeginSeries n f ty tg).w.data = w.w.data) := by
  refine ⟨?_, ?_, ?_, ?_⟩
  · intro w ops
    exact execOps_m ops w
  · intro w
    exact ⟨rfl, rfl⟩
  · intro w h
    have g : ∀ (β : Type) (fv : β → String) (c : Cursor β),
        writeCursorWith fv w c = (w, c) :=
      fun β fv c => writeCursorWith_guard fv w c (Or.inr h)
    exact ⟨fun c => by rw [Writer.WriteIntegerCursor, g],
      fun c => by rw [Writer.WriteFloatCursor, g],
      fun c => by rw [Writer.WriteUnsignedCursor, g],
      fun c => by rw [Writer.WriteBooleanCursor, g],
      fun c => by rw [Writer.WriteStringCursor, g]⟩
  · intro w n f ty tg h
    unfold Writer.BeginSeries
    split
    · rfl
    · rw [if_neg (by rw [h]; decide)]

/-- Witness for C8 at concrete inputs: a Series encoder emits nothing from a
typed write; a Values encoder emits nothing from `BeginSeries`. -/
theorem c8_witness :
    ((NewWriter Series).WriteIntegerCursor [[(1, 2)]]).1.w.data
      = (NewWriter Series).w.data
    ∧ ((NewWriter Values).BeginSeries "m" "f" 0 []).w.data
      = (NewWriter Values).w.data :=
  ⟨(c8_mode_fixed_for_life.2.2.1 (NewWriter Series) rfl).1 [[(1, 2)]],
   c8_mode_fixed_for_life.2.2.2 (NewWriter Values) "m" "f" 0 [] rfl⟩

/-- C9: the encoder is deterministic — two freshly constructed encoders in the
same mode, driven with the same call sequence (hence identical cursor inputs),
produce byte-identical sink output. -/
theorem c9_deterministic_output (m1 m2 : Mode) (ops1 ops2 : List Op)
    (hm : m1 = m2) (hops : ops1 = ops2) :
    (execOps (NewWriter m1) ops1).output = (execOps (NewWriter m2) ops2).output := by
  subst hm
  subst hops
  rfl

/-- Witness for C9 at a concrete input. -/
theorem c9_witness :
    (execOps (NewWriter Values) [Op.wInteger [[(1, 2)]]]).output
      = (execOps (NewWriter Values) [Op.wInteger [[(1, 2)]]]).output :=
  c9_deterministic_output Values Values _ _ rfl rfl

/-- C10: `EndSeries` is a pure no-op — it writes nothing and leaves every
field of the encoder (sink, scratch buffer, latch, mode) exactly unchanged. -/
theorem c10_endSeries_pure_noop (w : Writer) :
    w.EndSeries = w
    ∧ (w.EndSeries).w = w.w
    ∧ (w.EndSeries).w.data = w.w.data
    ∧ (w.EndSeries).key = w.key
    ∧ (w.EndSeries).err = w.err
    ∧ (w.EndSeries).m = w.m :=
  ⟨rfl, rfl, rfl, rfl, rfl, rfl⟩

end TextFormat
